import Mathlib

/-!
Verification of the memoization cache decorator of `plone.memoize.ram`
(file `src/plone/memoize/ram.py`).

The embedding is shallow:

* The external zope `RAMCache` engine (an external collaborator, abstracted
  by the spec as "a pluggable key-value store" with namespace-scoped bulk
  invalidation) is modelled as an association list of entries keyed by the
  pair (globalkey `ob`, raw key), with `query` / `set` / `invalidate`
  operations mirroring the calls the source makes on it.
* Python's fresh `marker = object()` allocation in
  `RAMCacheAdapter.__getitem__` is modelled by letting `query` answer in the
  sum type `alpha ⊕ Unit`: stored values come back as `Sum.inl v`, and the
  freshly allocated marker, which can never be identical to any storable
  value, is `Sum.inr ()`.  The Python identity test `value is marker`
  becomes a match on the `Sum.inr` constructor.
* Exceptions (`KeyError`) are modelled with `Except`.
* The per-call mutable state (the set of RAM caches in the process) is an
  explicit `World` value threaded through each call; the "was the underlying
  function body invoked" observation is an explicit boolean in the call
  result, and the content of the throwaway per-call dict (returned by
  `store_in_ramcache` when the chooser yields no cache) is reported in the
  result as well, so that claims about discarded writes are statable.
* `plone.memoize.volatile` (the `cache` decorator core and the `DONT_CACHE`
  sentinel) belongs to this repository but is not under `src/`; it is
  modelled from the spec (section 4.3) and marked as such below.
-/

/-- Entries of one RAM cache: an association list from
(globalkey `ob`, raw key) to the stored value.  The zope engine keys
entries by an object identifier `ob` and a key dict; the source always
passes the one-field dict `dict(key=key)`, which is in bijection with the
raw key, so the raw key is used directly here. -/
abbrev Entries (κ α : Type) := List ((String × κ) × α)

namespace RAMCache

/-- Model of `RAMCache.query(ob, key, default)` of the external zope engine:
return the value stored under `(ob, key)`, injected with `Sum.inl`, or the
given default.  The source passes a freshly allocated marker object as the
default; freshness is modelled by the marker inhabiting the right summand,
disjoint from every storable value. -/
def query [DecidableEq κ] (entries : Entries κ α) (ob : String) (key : κ)
    (default : α ⊕ Unit) : α ⊕ Unit :=
  match entries.find? (fun e => decide (e.1 = (ob, key))) with
  | some e => Sum.inl e.2
  | none => default

/-- Model of `RAMCache.set(value, ob, key)` of the external zope engine:
unconditional overwrite of the entry for `(ob, key)`. -/
def set [DecidableEq κ] (entries : Entries κ α) (value : α) (ob : String)
    (key : κ) : Entries κ α :=
  ((ob, key), value) :: entries.filter (fun e => !(decide (e.1 = (ob, key))))

/-- Model of `RAMCache.invalidate(ob)` of the external zope engine: remove
every entry stored under the namespace `ob`, leaving other namespaces
untouched (spec section 4.4). -/
def invalidate (entries : Entries κ α) (ob : String) : Entries κ α :=
  entries.filter (fun e => !(decide (e.1.1 = ob)))

end RAMCache

/-- Embedding of `RAMCacheAdapter` (ram.py lines 108-128): wraps one RAM
cache (here: its entries, passed by value) together with the namespacing
`globalkey` of one memoized function. -/
structure RAMCacheAdapter (κ α : Type) where
  ramcache : Entries κ α
  globalkey : String
deriving DecidableEq

namespace RAMCacheAdapter

variable {κ α : Type} [DecidableEq κ]

/-- Embedding of `RAMCacheAdapter.__getitem__` (ram.py lines 113-119):
query with a fresh marker as default; if the marker itself comes back,
raise `KeyError(key)`, otherwise return the stored value. -/
def getitem (a : RAMCacheAdapter κ α) (key : κ) : Except κ α :=
  match RAMCache.query a.ramcache a.globalkey key (Sum.inr ()) with
  | Sum.inr _ => Except.error key
  | Sum.inl v => Except.ok v

/-- Embedding of `RAMCacheAdapter.__setitem__` (ram.py lines 121-122). -/
def setitem (a : RAMCacheAdapter κ α) (key : κ) (value : α) :
    RAMCacheAdapter κ α :=
  { a with ramcache := RAMCache.set a.ramcache value a.globalkey key }

/-- Embedding of `RAMCacheAdapter.get` (ram.py lines 124-128): `__getitem__`
with the `KeyError` caught and turned into the default. -/
def get (a : RAMCacheAdapter κ α) (key : κ) (default : α) : α :=
  match a.getitem key with
  | Except.ok v => v
  | Except.error _ => default

/-- The store lookup the decorator core performs, `store.get(key, marker)`
with a fresh marker (spec section 4.3 step 5): `some v` on a hit, `none`
when the marker comes back. -/
def lookup? (a : RAMCacheAdapter κ α) (key : κ) : Option α :=
  match a.getitem key with
  | Except.ok v => some v
  | Except.error _ => none

end RAMCacheAdapter

/-- Embedding of `choose_cache` (ram.py lines 130-131): return the utility
registered for `IRAMCache`, ignoring the function name.  The component
registry's state — which cache, if any, is registered as the `IRAMCache`
utility — is the explicit first argument; caches are named by identifiers
(`cacheId` strings) resolved in a `World`. -/
def choose_cache (registeredRAMCache : Option String) (fun_name : String) :
    Option String :=
  registeredRAMCache

/-- Embedding of the stable name `'%s.%s' % (fun.__module__, fun.__name__)`
computed in `store_in_ramcache` (ram.py line 135). -/
def stableName (module name : String) : String :=
  module ++ "." ++ name

/-- Model of a Python `dict` used as a store: `store_in_ramcache` returns a
fresh empty `{}` when the chooser yields no cache (ram.py lines 137-138). -/
structure PyDict (κ α : Type) where
  entries : List (κ × α)
deriving DecidableEq

namespace PyDict

variable {κ α : Type} [DecidableEq κ]

/-- Python `d.get(key, marker)` with a fresh marker: `some v` on a hit,
`none` when the key is absent. -/
def lookup? (d : PyDict κ α) (key : κ) : Option α :=
  (d.entries.find? (fun e => decide (e.1 = key))).map (fun e => e.2)

/-- Python `d[key] = value`. -/
def setitem (d : PyDict κ α) (key : κ) (value : α) : PyDict κ α :=
  ⟨(key, value) :: d.entries.filter (fun e => !(decide (e.1 = key)))⟩

end PyDict

/-- The store resolved for one call: either an adapter over the RAM cache
named `cacheId` (namespaced by `globalkey`), or a fresh per-call Python
dict. -/
inductive StoreChoice (κ α : Type) where
  | ramAdapter (cacheId : String) (globalkey : String)
  | freshDict (d : PyDict κ α)
deriving DecidableEq

/-- Embedding of `store_in_ramcache` (ram.py lines 134-140): compute the
function's stable name, apply the registered `IRAMCacheChooser` utility
(the `chooser` argument) to it; if it yields no cache return a fresh empty
dict `{}`, otherwise an adapter over the chosen cache namespaced by the
stable name. -/
def store_in_ramcache {κ α : Type} (chooser : String → Option String)
    (module name : String) : StoreChoice κ α :=
  match chooser (stableName module name) with
  | none => StoreChoice.freshDict ⟨[]⟩
  | some cid => StoreChoice.ramAdapter cid (stableName module name)

/-- The mutable process state: the entries of every RAM cache, by cache
identifier.  A cache that was never written has no entry here and reads as
empty. -/
structure World (κ α : Type) where
  caches : List (String × Entries κ α)
deriving DecidableEq

namespace World

variable {κ α : Type} [DecidableEq κ]

/-- The current entries of the cache named `cid`. -/
def getCache (w : World κ α) (cid : String) : Entries κ α :=
  match w.caches.find? (fun c => decide (c.1 = cid)) with
  | some c => c.2
  | none => []

/-- Replace the entries of the cache named `cid`. -/
def setCache (w : World κ α) (cid : String) (e : Entries κ α) : World κ α :=
  ⟨(cid, e) :: w.caches.filter (fun c => !(decide (c.1 = cid)))⟩

/-- Model of `cache.invalidate(ob)` on the cache named `cid`: remove every
entry under the namespace `ob` in that cache. -/
def invalidate (w : World κ α) (cid ob : String) : World κ α :=
  w.setCache cid (RAMCache.invalidate (w.getCache cid) ob)

end World

/-- Result of the key function for one call: a cache key, or the bypass
sentinel `DONT_CACHE` re-exported by ram.py line 106. -/
inductive KeyResult (κ : Type) where
  | key (k : κ)
  | DONT_CACHE
deriving DecidableEq

/-- Observable outcome of one call of the memoized function: the returned
value, the world afterwards, whether the underlying function body was
invoked on this call, and — when the store for this call was the throwaway
per-call dict — that dict's final contents (it is dropped when the call
returns, so any write to it is discarded). -/
structure RamCallResult (κ α : Type) where
  value : α
  world : World κ α
  bodyRan : Bool
  localStore : Option (List (κ × α))
deriving DecidableEq

/-- Modelled from the spec: a single call of a function wrapped by
`cache(get_key)` of ram.py lines 142-143, which is
`volatile.cache(get_key, get_cache=store_in_ramcache)`; the module
`plone.memoize.volatile` is not under `src/`, so the decorator core follows
the spec's algorithm (section 4.3): compute the key (here `keyResult`, the
value the caller-supplied key function produced for this call's arguments);
if it is the bypass sentinel, run the body and skip all caching; otherwise
resolve the store via `store_in_ramcache`, attempt `store.get(k, marker)`,
return a hit without running the body, and on a miss run the body, write
the result to the resolved store and return it.  `body` is the value the
underlying function body would produce if invoked on this call. -/
def ramCachedCall {κ α : Type} [DecidableEq κ]
    (chooser : String → Option String) (module name : String)
    (keyResult : KeyResult κ) (body : α) (w : World κ α) :
    RamCallResult κ α :=
  match keyResult with
  | KeyResult.DONT_CACHE => ⟨body, w, true, none⟩
  | KeyResult.key k =>
    match store_in_ramcache chooser module name with
    | StoreChoice.freshDict d =>
      match d.lookup? k with
      | some v => ⟨v, w, false, some d.entries⟩
      | none => ⟨body, w, true, some (d.setitem k body).entries⟩
    | StoreChoice.ramAdapter cid gk =>
      let a : RAMCacheAdapter κ α := ⟨w.getCache cid, gk⟩
      match a.lookup? k with
      | some v => ⟨v, w, false, none⟩
      | none =>
        ⟨body, w.setCache cid (a.setitem k body).ramcache, true, none⟩

/-! ### Helper lemmas about the store model -/

theorem find?_filter_of_imp {β : Type} (p q : β → Bool) (l : List β)
    (h : ∀ x, p x = true → q x = true) :
    (l.filter q).find? p = l.find? p := by
  induction l with
  | nil => rfl
  | cons a l ih =>
    by_cases hq : q a = true
    · rw [List.filter_cons_of_pos hq]
      by_cases hp : p a = true
      · rw [List.find?_cons_of_pos _ hp, List.find?_cons_of_pos _ hp]
      · rw [List.find?_cons_of_neg _ hp, List.find?_cons_of_neg _ hp, ih]
    · have hp : ¬ (p a = true) := fun hpa => hq (h a hpa)
      rw [List.filter_cons_of_neg hq, ih, List.find?_cons_of_neg _ hp]

namespace RAMCache

variable {κ α : Type} [DecidableEq κ]

theorem query_set_self (e : Entries κ α) (v : α) (ob : String) (k : κ)
    (d : α ⊕ Unit) : query (set e v ob k) ob k d = Sum.inl v := by
  unfold query set
  rw [List.find?_cons_of_pos _ (by simp)]

theorem query_set_other (e : Entries κ α) (v : α) (ob ob' : String)
    (k k' : κ) (d : α ⊕ Unit) (h : (ob', k') ≠ (ob, k)) :
    query (set e v ob k) ob' k' d = query e ob' k' d := by
  unfold query set
  rw [List.find?_cons_of_neg _
    (by simp only [decide_eq_true_eq]; exact fun hc => h hc.symm),
    find?_filter_of_imp]
  intro x hx
  simp only [decide_eq_true_eq] at hx
  simp only [Bool.not_eq_true', decide_eq_false_iff_not]
  rw [hx]
  exact h

theorem query_invalidate_self (e : Entries κ α) (ob : String) (k : κ)
    (d : α ⊕ Unit) : query (invalidate e ob) ob k d = d := by
  unfold query invalidate
  rw [List.find?_eq_none.2]
  intro x hx
  simp only [List.mem_filter, Bool.not_eq_true', decide_eq_false_iff_not]
    at hx
  simp only [decide_eq_true_eq]
  intro hxk
  exact hx.2 (by rw [hxk])

theorem query_invalidate_other (e : Entries κ α) (ob ob' : String) (k : κ)
    (d : α ⊕ Unit) (h : ob ≠ ob') :
    query (invalidate e ob') ob k d = query e ob k d := by
  unfold query invalidate
  rw [find?_filter_of_imp]
  intro x hx
  simp only [decide_eq_true_eq] at hx
  simp only [Bool.not_eq_true', decide_eq_false_iff_not]
  rw [hx]
  exact fun hc => h hc

end RAMCache

namespace World

variable {κ α : Type} [DecidableEq κ]

theorem getCache_setCache_self (w : World κ α) (cid : String)
    (e : Entries κ α) : (w.setCache cid e).getCache cid = e := by
  unfold getCache setCache
  rw [List.find?_cons_of_pos _ (by simp)]

theorem getCache_setCache_other (w : World κ α) (cid cid' : String)
    (e : Entries κ α) (h : cid' ≠ cid) :
    (w.setCache cid e).getCache cid' = w.getCache cid' := by
  unfold getCache setCache
  rw [List.find?_cons_of_neg _ (by simpa using fun hc => h hc.symm),
    find?_filter_of_imp]
  intro x hx
  simp only [decide_eq_true_eq] at hx
  simp only [Bool.not_eq_true', decide_eq_false_iff_not]
  rw [hx]
  exact h

end World

namespace RAMCacheAdapter

variable {κ α : Type} [DecidableEq κ]

theorem getitem_mk_set_self (e : Entries κ α) (gk : String) (k : κ) (v : α) :
    (RAMCacheAdapter.mk (RAMCache.set e v gk k) gk).getitem k
      = Except.ok v := by
  unfold getitem
  simp only [RAMCache.query_set_self]

theorem lookup?_mk_set_self (e : Entries κ α) (gk : String) (k : κ) (v : α) :
    (RAMCacheAdapter.mk (RAMCache.set e v gk k) gk).lookup? k = some v := by
  unfold lookup?
  simp only [getitem_mk_set_self]

theorem lookup?_mk_invalidate_self (e : Entries κ α) (ob : String) (k : κ) :
    (RAMCacheAdapter.mk (RAMCache.invalidate e ob) ob).lookup? k = none := by
  unfold lookup? getitem
  simp only [RAMCache.query_invalidate_self]

theorem setitem_mk (e : Entries κ α) (gk : String) (k : κ) (v : α) :
    (RAMCacheAdapter.mk e gk).setitem k v
      = RAMCacheAdapter.mk (RAMCache.set e v gk k) gk := rfl

end RAMCacheAdapter

/-- One call through a chosen RAM cache, characterized by the adapter
lookup: a hit returns the stored value without running the body, a miss
runs the body and writes its result into the chosen cache under the
function's stable name. -/
theorem ramCachedCall_of_chooser_some {κ α : Type} [DecidableEq κ]
    (chooser : String → Option String) (m n cid : String) (k : κ) (b : α)
    (w : World κ α) (h : chooser (stableName m n) = some cid) :
    ramCachedCall chooser m n (KeyResult.key k) b w
      = match (RAMCacheAdapter.mk (w.getCache cid) (stableName m n)).lookup? k
          with
        | some v => ⟨v, w, false, none⟩
        | none =>
          ⟨b, w.setCache cid
              (RAMCache.set (w.getCache cid) b (stableName m n) k),
            true, none⟩ := by
  unfold ramCachedCall store_in_ramcache
  rw [h]
  rfl

theorem ramCachedCall_hit {κ α : Type} [DecidableEq κ]
    (chooser : String → Option String) (m n cid : String) (k : κ) (b v : α)
    (w : World κ α) (h : chooser (stableName m n) = some cid)
    (hl : (RAMCacheAdapter.mk (w.getCache cid) (stableName m n)).lookup? k
      = some v) :
    ramCachedCall chooser m n (KeyResult.key k) b w = ⟨v, w, false, none⟩ := by
  rw [ramCachedCall_of_chooser_some chooser m n cid k b w h, hl]

theorem ramCachedCall_miss {κ α : Type} [DecidableEq κ]
    (chooser : String → Option String) (m n cid : String) (k : κ) (b : α)
    (w : World κ α) (h : chooser (stableName m n) = some cid)
    (hl : (RAMCacheAdapter.mk (w.getCache cid) (stableName m n)).lookup? k
      = none) :
    ramCachedCall chooser m n (KeyResult.key k) b w
      = ⟨b, w.setCache cid
            (RAMCache.set (w.getCache cid) b (stableName m n) k),
          true, none⟩ := by
  rw [ramCachedCall_of_chooser_some chooser m n cid k b w h, hl]

theorem filter_filter_of_imp {β : Type} (p q : β → Bool) (l : List β)
    (h : ∀ x, p x = true → q x = true) :
    (l.filter q).filter p = l.filter p := by
  induction l with
  | nil => rfl
  | cons a l ih =>
    by_cases hq : q a = true
    · rw [List.filter_cons_of_pos hq]
      by_cases hp : p a = true
      · rw [List.filter_cons_of_pos hp, List.filter_cons_of_pos hp, ih]
      · rw [List.filter_cons_of_neg hp, List.filter_cons_of_neg hp, ih]
    · have hp : ¬ (p a = true) := fun hpa => hq (h a hpa)
      rw [List.filter_cons_of_neg hq, ih, List.filter_cons_of_neg hp]

/-! ### Claims -/

/-- C4: for every call whose key function returned the bypass sentinel
`DONT_CACHE`, the underlying function body is invoked on that call (for any
world state, hence regardless of repeated arguments), the returned value is
the body's result, and no cache entry is written to any store: the world is
unchanged and not even a throwaway per-call dict is touched. -/
theorem dont_cache_runs_body_and_writes_nothing {κ α : Type} [DecidableEq κ]
    (chooser : String → Option String) (m n : String) (b : α)
    (w : World κ α) :
    ramCachedCall chooser m n (KeyResult.DONT_CACHE : KeyResult κ) b w
      = ⟨b, w, true, none⟩ :=
  rfl

/-- C6: `RAMCacheAdapter.get(key, default)` never raises: it is total in
the model and returns the stored value when `__getitem__` succeeds and the
given default otherwise; `__getitem__` raises `KeyError` exactly when no
value is stored under the adapter's namespace and this key, and every
successful lookup returns a value actually stored there. -/
theorem adapter_get_never_fails {κ α : Type} [DecidableEq κ]
    (a : RAMCacheAdapter κ α) (k : κ) (d : α) :
    (a.getitem k = Except.error k ↔
      ∀ v : α, ((a.globalkey, k), v) ∉ a.ramcache) ∧
    (∀ v : α, a.getitem k = Except.ok v → ((a.globalkey, k), v) ∈ a.ramcache) ∧
    (∀ v : α, a.getitem k = Except.ok v → a.get k d = v) ∧
    (a.getitem k = Except.error k → a.get k d = d) ∧
    ((∃ v, a.getitem k = Except.ok v) ∨ a.getitem k = Except.error k) := by
  unfold RAMCacheAdapter.get RAMCacheAdapter.getitem RAMCache.query
  rcases hf : a.ramcache.find? (fun e => decide (e.1 = (a.globalkey, k)))
    with _ | e
  · rw [hf]
    refine ⟨⟨fun _ v hv => ?_, fun _ => rfl⟩, fun v hv => ?_, fun v hv => ?_,
      fun _ => rfl, Or.inr rfl⟩
    · have hp := List.find?_eq_none.1 hf _ hv
      simp at hp
    · exact absurd hv (by simp)
    · exact absurd hv (by simp)
  · have he1 : e.1 = (a.globalkey, k) := by
      have hp := List.find?_some hf
      simpa using hp
    have hmem : ((a.globalkey, k), e.2) ∈ a.ramcache := by
      rw [← he1]
      exact List.mem_of_find?_eq_some hf
    rw [hf]
    refine ⟨⟨fun hv => ?_, fun habs => absurd hmem (habs e.2)⟩,
      fun v hv => ?_, fun v hv => ?_, fun hv => ?_, Or.inl ⟨e.2, rfl⟩⟩
    · exact absurd hv (by simp)
    · have h2 : e.2 = v := by simpa using hv
      rw [← h2]
      exact hmem
    · have h2 : e.2 = v := by simpa using hv
      simp [← h2]
    · exact absurd hv (by simp)

/-- C7: the default cache chooser `choose_cache` ignores the function name
entirely, so every function identity maps to the single registered
process-wide store; composed through `store_in_ramcache` every function
resolves to an adapter over the same cache; and the chooser is overridable:
for any registered default there is another chooser under which the same
function resolves to a different store. -/
theorem choose_cache_constant_and_overridable (κ α : Type) :
    (∀ (registry : Option String) (n₁ n₂ : String),
      choose_cache registry n₁ = choose_cache registry n₂) ∧
    (∀ (cid m n : String),
      (store_in_ramcache (choose_cache (some cid)) m n : StoreChoice κ α)
        = StoreChoice.ramAdapter cid (stableName m n)) ∧
    (∀ (cid m n : String), ∃ ch : String → Option String,
      (store_in_ramcache ch m n : StoreChoice κ α)
        ≠ store_in_ramcache (choose_cache (some cid)) m n) := by
  refine ⟨fun _ _ _ => rfl, fun _ _ _ => rfl,
    fun cid m n => ⟨fun _ => none, ?_⟩⟩
  simp [store_in_ramcache, choose_cache]

/-- C10: `__getitem__` compares the query result against a marker that can
never coincide with a storable value (the model's counterpart of allocating
a fresh `object()` on every lookup), so no storable value — `None` or any
caller-visible sentinel included, since the value type is arbitrary here —
can be mistaken for a cache miss: every value just stored is returned as a
hit, the marker is distinct from every stored value, and `KeyError` is
raised exactly when the backend query returns the marker default, i.e. the
backend reports the key absent. -/
theorem fresh_marker_prevents_false_miss {κ α : Type} [DecidableEq κ]
    (a : RAMCacheAdapter κ α) (k : κ) :
    (∀ v : α, (a.setitem k v).getitem k = Except.ok v) ∧
    (∀ v : α, (Sum.inl v : α ⊕ Unit) ≠ Sum.inr ()) ∧
    (a.getitem k = Except.error k ↔
      RAMCache.query a.ramcache a.globalkey k (Sum.inr ()) = Sum.inr ()) := by
  refine ⟨fun v => ?_, fun v hv => by simp at hv, ?_⟩
  · simp only [RAMCacheAdapter.setitem, RAMCacheAdapter.getitem,
      RAMCache.query_set_self]
  · rcases hq : RAMCache.query a.ramcache a.globalkey k (Sum.inr ())
      with v | u
    · simp [RAMCacheAdapter.getitem, hq]
    · simp [RAMCacheAdapter.getitem, hq]

/-- C1: for every key function and wrapped function — represented by the
key value the key function produced for the call's arguments and by the
values the underlying body would return — calling the memoized function
twice with arguments that produce the same cache key invokes the body at
most once: the second call never runs the body and returns a value equal to
the first call's return value.  The hypothesis states that the chooser
selects a cache for this function, which is the configuration the spec's
property assumes (with no cache selected, caching is disabled; see C5). -/
theorem same_key_runs_body_at_most_once {κ α : Type} [DecidableEq κ]
    (chooser : String → Option String) (m n cid : String) (k : κ)
    (b₁ b₂ : α) (w : World κ α) (h : chooser (stableName m n) = some cid) :
    (ramCachedCall chooser m n (KeyResult.key k) b₂
        (ramCachedCall chooser m n (KeyResult.key k) b₁ w).world).bodyRan
      = false ∧
    (ramCachedCall chooser m n (KeyResult.key k) b₂
        (ramCachedCall chooser m n (KeyResult.key k) b₁ w).world).value
      = (ramCachedCall chooser m n (KeyResult.key k) b₁ w).value := by
  rcases hl : (RAMCacheAdapter.mk (w.getCache cid) (stableName m n)).lookup? k
    with _ | v
  · simp only [ramCachedCall_miss chooser m n cid k b₁ w h hl]
    have h2 : (RAMCacheAdapter.mk
        ((w.setCache cid
          (RAMCache.set (w.getCache cid) b₁ (stableName m n) k)).getCache cid)
        (stableName m n)).lookup? k = some b₁ := by
      rw [World.getCache_setCache_self]
      exact RAMCacheAdapter.lookup?_mk_set_self (w.getCache cid)
        (stableName m n) k b₁
    simp only [ramCachedCall_hit chooser m n cid k b₂ b₁ _ h h2]
    constructor <;> trivial
  · simp only [ramCachedCall_hit chooser m n cid k b₁ v w h hl]
    simp only [ramCachedCall_hit chooser m n cid k b₂ v w h hl]
    constructor <;> trivial

/-- C2: after `invalidate` is run with a function's stable module-qualified
name on the cache the chooser selects for that function, the next call of
the memoized function with an unchanged argument key re-invokes the
underlying body (the previously cached entry, whatever the world held, is
gone) and returns the body's fresh result. -/
theorem invalidate_forces_body_rerun {κ α : Type} [DecidableEq κ]
    (chooser : String → Option String) (m n cid : String) (k : κ) (b : α)
    (w : World κ α) (h : chooser (stableName m n) = some cid) :
    (ramCachedCall chooser m n (KeyResult.key k) b
        (w.invalidate cid (stableName m n))).bodyRan = true ∧
    (ramCachedCall chooser m n (KeyResult.key k) b
        (w.invalidate cid (stableName m n))).value = b := by
  have hl : (RAMCacheAdapter.mk
      ((w.invalidate cid (stableName m n)).getCache cid)
      (stableName m n)).lookup? k = none := by
    unfold World.invalidate
    rw [World.getCache_setCache_self]
    exact RAMCacheAdapter.lookup?_mk_invalidate_self (w.getCache cid)
      (stableName m n) k
  simp only [ramCachedCall_miss chooser m n cid k b _ h hl]
  constructor <;> trivial

/-- C3: for two distinct memoized functions sharing one underlying cache,
invalidating one function's namespace leaves every entry stored under the
other function's namespace unchanged (both as the literal entry list under
that namespace and observationally through `query`); and because each
adapter instance is namespaced by its function's stable name, a write under
one function's name never affects the other function's lookups, even with
an equal raw key. -/
theorem invalidate_and_namespace_isolation {κ α : Type} [DecidableEq κ]
    (e : Entries κ α) (fname gname : String) (h : fname ≠ gname) :
    ((RAMCache.invalidate e fname).filter (fun x => decide (x.1.1 = gname))
      = e.filter (fun x => decide (x.1.1 = gname))) ∧
    (∀ (k : κ) (d : α ⊕ Unit),
      RAMCache.query (RAMCache.invalidate e fname) gname k d
        = RAMCache.query e gname k d) ∧
    (∀ (k k' : κ) (v : α),
      (RAMCacheAdapter.mk (RAMCache.set e v fname k') gname).getitem k
        = (RAMCacheAdapter.mk e gname).getitem k) := by
  refine ⟨?_, fun k d => ?_, fun k k' v => ?_⟩
  · unfold RAMCache.invalidate
    apply filter_filter_of_imp
    intro x hx
    simp only [decide_eq_true_eq] at hx
    simp only [Bool.not_eq_true', decide_eq_false_iff_not]
    rw [hx]
    exact fun hc => h hc.symm
  · exact RAMCache.query_invalidate_other e gname fname k d
      (fun hc => h hc.symm)
  · simp only [RAMCacheAdapter.getitem]
    rw [RAMCache.query_set_other e v fname gname k' k (Sum.inr ())
      (fun hc => h (congrArg Prod.fst hc).symm)]

/-- C5: when the cache chooser returns no cache for a function's stable
name, every call of that memoized function executes the underlying body,
returns its result, and leaves every cache unchanged — caching is simply
disabled, and the call is total in the model, not an error; a repeated
call with the same key executes the body again. -/
theorem none_chooser_disables_caching {κ α : Type} [DecidableEq κ]
    (chooser : String → Option String) (m n : String) (k : κ) (b₁ b₂ : α)
    (w : World κ α) (h : chooser (stableName m n) = none) :
    (ramCachedCall chooser m n (KeyResult.key k) b₁ w).value = b₁ ∧
    (ramCachedCall chooser m n (KeyResult.key k) b₁ w).bodyRan = true ∧
    (ramCachedCall chooser m n (KeyResult.key k) b₁ w).world = w ∧
    (ramCachedCall chooser m n (KeyResult.key k) b₂
        (ramCachedCall chooser m n (KeyResult.key k) b₁ w).world).bodyRan
      = true := by
  have e1 : ∀ b : α, ramCachedCall chooser m n (KeyResult.key k) b w
      = ⟨b, w, true, some [(k, b)]⟩ := by
    intro b
    unfold ramCachedCall store_in_ramcache
    rw [h]
    rfl
  simp only [e1]
  refine ⟨?_, ?_, ?_, ?_⟩ <;> trivial

/-- C8: the store is resolved freshly on every call, so replacing the
registered cache-selection strategy at runtime redirects the very next call
of an already-decorated function: after a first call under a chooser that
selects `cid₁`, a second call under a new chooser selecting a different
cache `cid₂` (which does not yet hold an entry for this function and key)
re-runs the body, writes its result into `cid₂`, and leaves `cid₁`'s
entries as the first call left them. -/
theorem chooser_switch_redirects_next_call {κ α : Type} [DecidableEq κ]
    (ch₁ ch₂ : String → Option String) (m n cid₁ cid₂ : String) (k : κ)
    (b₁ b₂ : α) (w : World κ α)
    (h₁ : ch₁ (stableName m n) = some cid₁)
    (h₂ : ch₂ (stableName m n) = some cid₂)
    (hne : cid₁ ≠ cid₂)
    (habsent : (RAMCacheAdapter.mk (w.getCache cid₂)
      (stableName m n)).lookup? k = none) :
    (ramCachedCall ch₂ m n (KeyResult.key k) b₂
        (ramCachedCall ch₁ m n (KeyResult.key k) b₁ w).world).bodyRan
      = true ∧
    (ramCachedCall ch₂ m n (KeyResult.key k) b₂
        (ramCachedCall ch₁ m n (KeyResult.key k) b₁ w).world).world.getCache
        cid₂
      = RAMCache.set (w.getCache cid₂) b₂ (stableName m n) k ∧
    (ramCachedCall ch₂ m n (KeyResult.key k) b₂
        (ramCachedCall ch₁ m n (KeyResult.key k) b₁ w).world).world.getCache
        cid₁
      = (ramCachedCall ch₁ m n (KeyResult.key k) b₁ w).world.getCache cid₁
      := by
  have hpres : (ramCachedCall ch₁ m n (KeyResult.key k) b₁ w).world.getCache
      cid₂ = w.getCache cid₂ := by
    rcases hl : (RAMCacheAdapter.mk (w.getCache cid₁)
        (stableName m n)).lookup? k with _ | v
    · simp only [ramCachedCall_miss ch₁ m n cid₁ k b₁ w h₁ hl]
      exact World.getCache_setCache_other w cid₁ cid₂ _
        (fun hc => hne hc.symm)
    · simp only [ramCachedCall_hit ch₁ m n cid₁ k b₁ v w h₁ hl]
  have hl₂ : (RAMCacheAdapter.mk
      ((ramCachedCall ch₁ m n (KeyResult.key k) b₁ w).world.getCache cid₂)
      (stableName m n)).lookup? k = none := by
    rw [hpres]
    exact habsent
  simp only [ramCachedCall_miss ch₂ m n cid₂ k b₂ _ h₂ hl₂]
  refine ⟨by trivial, ?_, ?_⟩
  · rw [World.getCache_setCache_self, hpres]
  · exact World.getCache_setCache_other _ cid₂ cid₁ _ hne

/-- C9: `store_in_ramcache` never returns `None`: it returns either an
adapter over the chosen cache or — when the chooser yields no cache — a
fresh empty dict, so a call in that situation still goes through the store
protocol: it reads from and writes its result into a throwaway per-call
store whose contents are discarded when the call returns (every actual
cache is left unchanged), rather than skipping the store interaction. -/
theorem store_in_ramcache_never_none {κ α : Type} [DecidableEq κ]
    (chooser : String → Option String) (m n : String) :
    ((∃ cid, chooser (stableName m n) = some cid ∧
        (store_in_ramcache chooser m n : StoreChoice κ α)
          = StoreChoice.ramAdapter cid (stableName m n)) ∨
      (chooser (stableName m n) = none ∧
        (store_in_ramcache chooser m n : StoreChoice κ α)
          = StoreChoice.freshDict ⟨[]⟩)) ∧
    (∀ (k : κ) (b : α) (w : World κ α), chooser (stableName m n) = none →
      ramCachedCall chooser m n (KeyResult.key k) b w
        = ⟨b, w, true, some [(k, b)]⟩) := by
  constructor
  · rcases hc : chooser (stableName m n) with _ | cid
    · refine Or.inr ⟨rfl, ?_⟩
      unfold store_in_ramcache
      rw [hc]
    · refine Or.inl ⟨cid, rfl, ?_⟩
      unfold store_in_ramcache
      rw [hc]
  · intro k b w hc
    unfold ramCachedCall store_in_ramcache
    rw [hc]
    rfl

/-! ### Witnesses: the claim theorems applied at concrete inputs -/

/-- Witness for C1 at a concrete chooser, function and key. -/
theorem same_key_runs_body_at_most_once_witness :
    ((fun _ : String => some "g") (stableName "m" "f") = some "g") ∧
    ((ramCachedCall (fun _ : String => some "g") "m" "f"
        (KeyResult.key (1 : Nat)) (9 : Nat)
        (ramCachedCall (fun _ : String => some "g") "m" "f"
          (KeyResult.key 1) 7 (⟨[]⟩ : World Nat Nat)).world).bodyRan
      = false ∧
    (ramCachedCall (fun _ : String => some "g") "m" "f"
        (KeyResult.key (1 : Nat)) (9 : Nat)
        (ramCachedCall (fun _ : String => some "g") "m" "f"
          (KeyResult.key 1) 7 (⟨[]⟩ : World Nat Nat)).world).value
      = (ramCachedCall (fun _ : String => some "g") "m" "f"
          (KeyResult.key (1 : Nat)) 7 (⟨[]⟩ : World Nat Nat)).value) :=
  ⟨rfl, same_key_runs_body_at_most_once (fun _ => some "g") "m" "f" "g" 1 7 9
    ⟨[]⟩ rfl⟩

/-- Witness for C2 at a world already holding a cached entry. -/
theorem invalidate_forces_body_rerun_witness :
    ((fun _ : String => some "g") (stableName "m" "f") = some "g") ∧
    ((ramCachedCall (fun _ : String => some "g") "m" "f"
        (KeyResult.key (1 : Nat)) (42 : Nat)
        ((⟨[("g", [(("m.f", 1), 5)])]⟩ : World Nat Nat).invalidate "g"
          (stableName "m" "f"))).bodyRan = true ∧
    (ramCachedCall (fun _ : String => some "g") "m" "f"
        (KeyResult.key (1 : Nat)) (42 : Nat)
        ((⟨[("g", [(("m.f", 1), 5)])]⟩ : World Nat Nat).invalidate "g"
          (stableName "m" "f"))).value = 42) :=
  ⟨rfl, invalidate_forces_body_rerun (fun _ => some "g") "m" "f" "g" 1 42
    ⟨[("g", [(("m.f", 1), 5)])]⟩ rfl⟩

/-- Witness for C3 at a shared cache holding entries of two functions. -/
theorem invalidate_and_namespace_isolation_witness :
    ("m.f" ≠ "m.g") ∧
    ((RAMCache.invalidate
        ([(("m.f", 1), 10), (("m.g", 1), 20)] : Entries Nat Nat)
        "m.f").filter (fun x => decide (x.1.1 = "m.g"))
      = ([(("m.f", 1), 10), (("m.g", 1), 20)] : Entries Nat Nat).filter
          (fun x => decide (x.1.1 = "m.g"))) ∧
    (RAMCache.query (RAMCache.invalidate
        ([(("m.f", 1), 10), (("m.g", 1), 20)] : Entries Nat Nat) "m.f")
        "m.g" 1 (Sum.inr ())
      = RAMCache.query ([(("m.f", 1), 10), (("m.g", 1), 20)] : Entries Nat Nat)
          "m.g" 1 (Sum.inr ())) ∧
    ((RAMCacheAdapter.mk (RAMCache.set
        ([(("m.f", 1), 10), (("m.g", 1), 20)] : Entries Nat Nat) 99 "m.f" 1)
        "m.g").getitem 1
      = (RAMCacheAdapter.mk
          ([(("m.f", 1), 10), (("m.g", 1), 20)] : Entries Nat Nat)
          "m.g").getitem 1) :=
  ⟨by decide,
    (invalidate_and_namespace_isolation [(("m.f", 1), 10), (("m.g", 1), 20)]
      "m.f" "m.g" (by decide)).1,
    (invalidate_and_namespace_isolation [(("m.f", 1), 10), (("m.g", 1), 20)]
      "m.f" "m.g" (by decide)).2.1 1 (Sum.inr ()),
    (invalidate_and_namespace_isolation [(("m.f", 1), 10), (("m.g", 1), 20)]
      "m.f" "m.g" (by decide)).2.2 1 1 99⟩

/-- Witness for C5 at a chooser that yields no cache. -/
theorem none_chooser_disables_caching_witness :
    ((fun _ : String => (none : Option String)) (stableName "m" "f")
      = none) ∧
    ((ramCachedCall (fun _ : String => none) "m" "f" (KeyResult.key (1 : Nat))
        (7 : Nat) (⟨[]⟩ : World Nat Nat)).value = 7 ∧
    (ramCachedCall (fun _ : String => none) "m" "f" (KeyResult.key (1 : Nat))
        (7 : Nat) (⟨[]⟩ : World Nat Nat)).bodyRan = true ∧
    (ramCachedCall (fun _ : String => none) "m" "f" (KeyResult.key (1 : Nat))
        (7 : Nat) (⟨[]⟩ : World Nat Nat)).world = ⟨[]⟩ ∧
    (ramCachedCall (fun _ : String => none) "m" "f" (KeyResult.key (1 : Nat))
        (8 : Nat)
        (ramCachedCall (fun _ : String => none) "m" "f" (KeyResult.key 1) 7
          (⟨[]⟩ : World Nat Nat)).world).bodyRan = true) :=
  ⟨rfl, none_chooser_disables_caching (fun _ => none) "m" "f" 1 7 8 ⟨[]⟩ rfl⟩

/-- Witness for C6 at a one-entry adapter. -/
theorem adapter_get_never_fails_witness :
    ((RAMCacheAdapter.mk ([(("g", 1), 5)] : Entries Nat Nat) "g").getitem 1
        = Except.error 1 ↔
      ∀ v : Nat, (("g", 1), v) ∉ ([(("g", 1), 5)] : Entries Nat Nat)) ∧
    ((RAMCacheAdapter.mk ([(("g", 1), 5)] : Entries Nat Nat) "g").getitem 1
        = Except.ok 5 →
      (("g", 1), 5) ∈ ([(("g", 1), 5)] : Entries Nat Nat)) ∧
    ((RAMCacheAdapter.mk ([(("g", 1), 5)] : Entries Nat Nat) "g").getitem 1
        = Except.ok 5 →
      (RAMCacheAdapter.mk ([(("g", 1), 5)] : Entries Nat Nat) "g").get 1 0
        = 5) ∧
    ((RAMCacheAdapter.mk ([(("g", 1), 5)] : Entries Nat Nat) "g").getitem 1
        = Except.error 1 →
      (RAMCacheAdapter.mk ([(("g", 1), 5)] : Entries Nat Nat) "g").get 1 0
        = 0) ∧
    ((∃ v, (RAMCacheAdapter.mk ([(("g", 1), 5)] : Entries Nat Nat)
        "g").getitem 1 = Except.ok v) ∨
      (RAMCacheAdapter.mk ([(("g", 1), 5)] : Entries Nat Nat) "g").getitem 1
        = Except.error 1) :=
  ⟨(adapter_get_never_fails (RAMCacheAdapter.mk [(("g", 1), 5)] "g") 1 0).1,
    (adapter_get_never_fails (RAMCacheAdapter.mk [(("g", 1), 5)] "g")
      1 0).2.1 5,
    (adapter_get_never_fails (RAMCacheAdapter.mk [(("g", 1), 5)] "g")
      1 0).2.2.1 5,
    (adapter_get_never_fails (RAMCacheAdapter.mk [(("g", 1), 5)] "g")
      1 0).2.2.2.1,
    (adapter_get_never_fails (RAMCacheAdapter.mk [(("g", 1), 5)] "g")
      1 0).2.2.2.2⟩

/-- Witness for C8 at two choosers routing the same function to different
caches. -/
theorem chooser_switch_redirects_next_call_witness :
    ((fun _ : String => some "A") (stableName "m" "f") = some "A") ∧
    ((fun _ : String => some "B") (stableName "m" "f") = some "B") ∧
    ("A" ≠ "B") ∧
    ((RAMCacheAdapter.mk ((⟨[]⟩ : World Nat Nat).getCache "B")
        (stableName "m" "f")).lookup? 2 = none) ∧
    ((ramCachedCall (fun _ : String => some "B") "m" "f"
        (KeyResult.key (2 : Nat)) (8 : Nat)
        (ramCachedCall (fun _ : String => some "A") "m" "f"
          (KeyResult.key 2) 7 (⟨[]⟩ : World Nat Nat)).world).bodyRan
      = true ∧
    (ramCachedCall (fun _ : String => some "B") "m" "f"
        (KeyResult.key (2 : Nat)) (8 : Nat)
        (ramCachedCall (fun _ : String => some "A") "m" "f"
          (KeyResult.key 2) 7
          (⟨[]⟩ : World Nat Nat)).world).world.getCache "B"
      = RAMCache.set ((⟨[]⟩ : World Nat Nat).getCache "B") 8
          (stableName "m" "f") 2 ∧
    (ramCachedCall (fun _ : String => some "B") "m" "f"
        (KeyResult.key (2 : Nat)) (8 : Nat)
        (ramCachedCall (fun _ : String => some "A") "m" "f"
          (KeyResult.key 2) 7
          (⟨[]⟩ : World Nat Nat)).world).world.getCache "A"
      = (ramCachedCall (fun _ : String => some "A") "m" "f"
          (KeyResult.key (2 : Nat)) 7
          (⟨[]⟩ : World Nat Nat)).world.getCache "A") :=
  ⟨rfl, rfl, by decide, rfl,
    chooser_switch_redirects_next_call (fun _ => some "A")
      (fun _ => some "B") "m" "f" "A" "B" 2 7 8 ⟨[]⟩ rfl rfl (by decide) rfl⟩

/-- Witness for C9 at a chooser that yields no cache, showing the concrete
throwaway write. -/
theorem store_in_ramcache_never_none_witness :
    ((fun _ : String => (none : Option String)) (stableName "m" "f")
      = none) ∧
    ((∃ cid, (fun _ : String => (none : Option String)) (stableName "m" "f")
          = some cid ∧
        (store_in_ramcache (fun _ : String => none) "m" "f"
            : StoreChoice Nat Nat)
          = StoreChoice.ramAdapter cid (stableName "m" "f")) ∨
      ((fun _ : String => (none : Option String)) (stableName "m" "f")
          = none ∧
        (store_in_ramcache (fun _ : String => none) "m" "f"
            : StoreChoice Nat Nat)
          = StoreChoice.freshDict ⟨[]⟩)) ∧
    (ramCachedCall (fun _ : String => none) "m" "f" (KeyResult.key (1 : Nat))
        (7 : Nat) (⟨[]⟩ : World Nat Nat)
      = ⟨7, ⟨[]⟩, true, some [(1, 7)]⟩) :=
  ⟨rfl,
    (store_in_ramcache_never_none (fun _ : String => none) "m" "f").1,
    (store_in_ramcache_never_none (fun _ : String => none) "m" "f").2
      1 7 ⟨[]⟩ rfl⟩

/-- Witness for C10 at a concrete adapter and key, with a concrete stored
value. -/
theorem fresh_marker_prevents_false_miss_witness :
    (((RAMCacheAdapter.mk ([] : Entries Nat Nat) "g").setitem 1 0).getitem 1
      = Except.ok 0) ∧
    ((Sum.inl 0 : Nat ⊕ Unit) ≠ Sum.inr ()) ∧
    ((RAMCacheAdapter.mk ([] : Entries Nat Nat) "g").getitem 1
        = Except.error 1 ↔
      RAMCache.query ([] : Entries Nat Nat) "g" 1 (Sum.inr ())
        = Sum.inr ()) :=
  ⟨(fresh_marker_prevents_false_miss (RAMCacheAdapter.mk [] "g") 1).1 0,
    (fresh_marker_prevents_false_miss (RAMCacheAdapter.mk [] "g") 1).2.1 0,
    (fresh_marker_prevents_false_miss (RAMCacheAdapter.mk [] "g") 1).2.2⟩
